import Mathlib

/-
Verification development for the HURDAT2-analysis repository.

The definitions below are a shallow embedding of the Python modules
entities.py, repositories.py and services.py (with one definition each from
the older data_models.py revision).  A Python float parsed from a decimal
literal of this data set holds an exact decimal fraction, embedded as the
pair of an integer numerator and a power of ten; its real value is exposed
through toRat.  Python exceptions are modelled with Except; a Python
attribute that a property setter refused to assign is modelled as an Option
field holding none.
-/

namespace Hurdat2

/-- Exact decimal fraction num / 10 ^ exp: the value a Python float holds
after converting a plain decimal literal. -/
structure DecimalFrac where
  num : Int
  exp : Nat
deriving DecidableEq

/-- Rational value of a decimal fraction. -/
def DecimalFrac.toRat (v : DecimalFrac) : ℚ := (v.num : ℚ) / 10 ^ v.exp

/-- Negation of a decimal fraction, the effect of multiplying the float by
minus one. -/
def DecimalFrac.neg (v : DecimalFrac) : DecimalFrac := ⟨-v.num, v.exp⟩

/-- Exact test of abs v > b against a natural bound, as the float comparison
performs it. -/
def DecimalFrac.absGT (v : DecimalFrac) (b : Nat) : Bool :=
  v.num.natAbs > b * 10 ^ v.exp

/-- Exact test of abs v >= b against a natural bound. -/
def DecimalFrac.absGE (v : DecimalFrac) (b : Nat) : Bool :=
  v.num.natAbs ≥ b * 10 ^ v.exp

/-- Timestamp with minute precision, as produced by datetime.fromisoformat on
the date plus T plus time plus Z string the parser builds (UTC). -/
structure Timestamp where
  year : Nat
  month : Nat
  day : Nat
  hour : Nat
  minute : Nat
deriving DecidableEq

/-- entities.LatLongPoint: the two coordinate attributes.  A value of none
models a Python attribute that was never assigned because the property setter
returned early on an out of range argument. -/
structure LatLongPoint where
  _latitude : Option DecimalFrac
  _longitude : Option DecimalFrac
deriving DecidableEq

/-- entities.LatLongPoint latitude setter: refuses magnitudes above 90 (the
returned Bool is the Python return value, which assignment discards),
otherwise stores the value. -/
def LatLongPoint.set_latitude (p : LatLongPoint) (latitude : DecimalFrac) :
    LatLongPoint × Bool :=
  if latitude.absGT 90 then (p, false)
  else ({ p with _latitude := some latitude }, true)

/-- entities.LatLongPoint longitude setter: refuses magnitudes of 180 or
more, otherwise stores the value. -/
def LatLongPoint.set_longitude (p : LatLongPoint) (longitude : DecimalFrac) :
    LatLongPoint × Bool :=
  if longitude.absGE 180 then (p, false)
  else ({ p with _longitude := some longitude }, true)

/-- entities.LatLongPoint constructor: assigns latitude then longitude
through the property setters, starting from an object with neither attribute
set. -/
def LatLongPoint.init (latitude longitude : DecimalFrac) : LatLongPoint :=
  ((LatLongPoint.mk none none).set_latitude latitude).1.set_longitude longitude |>.1

/-- entities.TrackEntry: one data line of a track. -/
structure TrackEntry where
  location : LatLongPoint
  datetime : Timestamp
  record_identifier : String
  system_status : String
  max_windspeed : Int
deriving DecidableEq

/-- entities.Track: one storm with its header data and entry list. -/
structure Track where
  basin : String
  year : Int
  cyclone_no : Int
  no_track_entries : Int
  track_entries : List TrackEntry
  max_windspeed : Int := 0
  name : String := "UNNAMED"
deriving DecidableEq

/-- entities.Track.validate_entries: the parsed entry count equals the count
declared in the header. -/
def Track.validate_entries (t : Track) : Bool :=
  (t.track_entries.length : Int) == t.no_track_entries

/- String helpers, modelling the Python str.split and str.strip operations
by structural recursion over character lists. -/

/-- Python str.split on a single separator character: every occurrence of the
separator opens a new piece, so the number of pieces is one more than the
number of separators. -/
def splitOnChar (sep : Char) : List Char → List (List Char)
  | [] => [[]]
  | c :: rest =>
    match splitOnChar sep rest with
    | [] => if c = sep then [[], []] else [[c]]
    | h :: t => if c = sep then [] :: h :: t else (c :: h) :: t

/-- Python str.split over a string, yielding strings. -/
def pySplit (s : String) (sep : Char) : List String :=
  (splitOnChar sep s.data).map String.mk

/-- Whitespace in the sense of Python str.strip. -/
def isSpaceChar (c : Char) : Bool :=
  c = ' ' || c = '\t' || c = '\n' || c = '\r' || c = '\x0b' || c = '\x0c'

/-- Python str.strip: removes leading and trailing whitespace. -/
def pyStrip (s : String) : String :=
  String.mk (((s.data.dropWhile isSpaceChar).reverse.dropWhile isSpaceChar).reverse)

/- Numeric field parsing, modelling the Python conversions used by the
repository on already stripped fields. -/

/-- Value of a digit string read in base ten. -/
def digitsToNat (l : List Char) : Nat :=
  l.foldl (fun acc c => acc * 10 + (c.toNat - 48)) 0

/-- Nonempty and all characters are decimal digits. -/
def isDigits (l : List Char) : Bool :=
  !l.isEmpty && l.all Char.isDigit

/-- Python int() on a stripped string: an optional sign then one or more
digits. -/
def pyInt (s : String) : Option Int :=
  match s.data with
  | '+' :: rest => if isDigits rest then some (digitsToNat rest : Int) else none
  | '-' :: rest => if isDigits rest then some (-(digitsToNat rest : Int)) else none
  | l => if isDigits l then some (digitsToNat l : Int) else none

/-- Unsigned decimal literal: digits with at most one point, at least one
digit overall, read as an exact decimal fraction. -/
def decMag (l : List Char) : Option DecimalFrac :=
  match splitOnChar '.' l with
  | [i] => if isDigits i then some ⟨(digitsToNat i : Int), 0⟩ else none
  | [i, f] =>
      if isDigits (i ++ f) then some ⟨(digitsToNat (i ++ f) : Int), f.length⟩
      else none
  | _ => none

/-- Python float() on the plain decimal strings this data set carries. -/
def pyFloat (s : String) : Option DecimalFrac :=
  match s.data with
  | '+' :: rest => decMag rest
  | '-' :: rest => (decMag rest).map DecimalFrac.neg
  | l => decMag l

/-- Gregorian leap year test. -/
def isLeapYear (y : Nat) : Bool :=
  (y % 4 == 0 && y % 100 != 0) || y % 400 == 0

/-- Length of a month. -/
def daysInMonth (y m : Nat) : Nat :=
  if m == 2 then (if isLeapYear y then 29 else 28)
  else if m == 4 || m == 6 || m == 9 || m == 11 then 30
  else 31

/-- datetime.fromisoformat applied to the basic format eight digit date, the
letter T, a four digit time and the letter Z, validating calendar ranges. -/
def fromisoformatZ (date time : String) : Option Timestamp :=
  match date.data, time.data with
  | [y1, y2, y3, y4, m1, m2, d1, d2], [h1, h2, n1, n2] =>
    if [y1, y2, y3, y4, m1, m2, d1, d2].all Char.isDigit &&
       [h1, h2, n1, n2].all Char.isDigit then
      let y := digitsToNat [y1, y2, y3, y4]
      let mo := digitsToNat [m1, m2]
      let d := digitsToNat [d1, d2]
      let h := digitsToNat [h1, h2]
      let mi := digitsToNat [n1, n2]
      if 1 ≤ y && 1 ≤ mo && mo ≤ 12 && 1 ≤ d && d ≤ daysInMonth y mo &&
         h ≤ 23 && mi ≤ 59 then
        some ⟨y, mo, d, h, mi⟩
      else none
    else none
  | _, _ => none

/-- Failure modes of repositories.StormTextRepository.  malformedRecord
models the ValueError or IndexError raised while parsing a data line,
malformedHeader the corresponding failures on a header line, and
unboundLocalTrack the UnboundLocalError raised when a data line arrives
before any header has bound the track variable. -/
inductive ParseErr where
  | malformedRecord (line : String)
  | malformedHeader (line : String)
  | unboundLocalTrack (line : String)
deriving DecidableEq

/-- repositories.StormTextRepository._is_header: the line matches the
anchored pattern of two capital letters, two digits and four digits. -/
def _is_header (line : String) : Bool :=
  match line.data with
  | a :: b :: c :: d :: e :: f :: g :: h :: _ =>
      a.isUpper && b.isUpper && c.isDigit && d.isDigit &&
      e.isDigit && f.isDigit && g.isDigit && h.isDigit
  | _ => false

/-- repositories.StormTextRepository._parse_header: split on commas, strip
whitespace, decompose the first field through the header pattern, take the
second field verbatim as the name and the third as the declared count. -/
def _parse_header (line : String) : Except ParseErr Track :=
  let header := (pySplit line ',').map pyStrip
  match header[0]?, header[1]?, header[2]? with
  | some field0, some name, some countStr =>
    (match field0.data with
     | a :: b :: c :: d :: e :: f :: g :: h :: _ =>
       if a.isUpper && b.isUpper && c.isDigit && d.isDigit && e.isDigit &&
          f.isDigit && g.isDigit && h.isDigit then
         match pyInt countStr with
         | some n =>
             .ok { basin := String.mk [a, b],
                   year := (digitsToNat [e, f, g, h] : Int),
                   cyclone_no := (digitsToNat [c, d] : Int),
                   no_track_entries := n,
                   track_entries := [],
                   name := name }
         | none => .error (.malformedHeader line)
       else .error (.malformedHeader line)
     | _ => .error (.malformedHeader line))
  | _, _, _ => .error (.malformedHeader line)

/-- Latitude column conversion of repositories._parse_track_entry: float of
the field without its last character, negated exactly when that character is
the letter S. -/
def parseLatitudeField (field : String) : Option DecimalFrac :=
  match field.data.getLast? with
  | none => none
  | some c =>
      (pyFloat (String.mk field.data.dropLast)).map
        (fun q => if c == 'S' then q.neg else q)

/-- Longitude column conversion of repositories._parse_track_entry: float of
the field without its last character, negated exactly when that character is
the letter W. -/
def parseLongitudeField (field : String) : Option DecimalFrac :=
  match field.data.getLast? with
  | none => none
  | some c =>
      (pyFloat (String.mk field.data.dropLast)).map
        (fun q => if c == 'W' then q.neg else q)

/-- repositories.StormTextRepository._parse_track_entry: split the data line
on commas, strip each field, parse the seven positional columns; any failing
conversion raises, modelled as a malformedRecord error naming the line. -/
def _parse_track_entry (line : String) : Except ParseErr TrackEntry :=
  let data_line := (pySplit line ',').map pyStrip
  match data_line[0]?, data_line[1]?, data_line[2]?, data_line[3]?,
        data_line[4]?, data_line[5]?, data_line[6]? with
  | some dateS, some timeS, some recId, some status, some latS, some lonS, some windS =>
    (match fromisoformatZ dateS timeS with
     | none => .error (.malformedRecord line)
     | some ts =>
       match parseLatitudeField latS with
       | none => .error (.malformedRecord line)
       | some latitude =>
         match parseLongitudeField lonS with
         | none => .error (.malformedRecord line)
         | some longitude =>
           match pyInt windS with
           | none => .error (.malformedRecord line)
           | some wind =>
             .ok { location := LatLongPoint.init latitude longitude,
                   datetime := ts,
                   record_identifier := recId,
                   system_status := status,
                   max_windspeed := wind })
  | _, _, _, _, _, _, _ => .error (.malformedRecord line)

/-- Moves the currently open track, when one exists, to the end of the
finished list: in the Python loop the open track object already sits at the
end of the list and keeps receiving appended entries. -/
def closeTrack (tracks : List Track) (current : Option Track) : List Track :=
  match current with
  | none => tracks
  | some t => tracks ++ [t]

/-- Line scanning loop of repositories._parse_tracks: a header opens a new
track, a nonempty non header line is appended to the open track and is an
UnboundLocalError crash when no track is open, an empty line is skipped. -/
def parseLinesAux : List String → List Track → Option Track → Except ParseErr (List Track)
  | [], tracks, current => .ok (closeTrack tracks current)
  | line :: rest, tracks, current =>
    if _is_header line then
      match _parse_header line with
      | .error e => .error e
      | .ok t => parseLinesAux rest (closeTrack tracks current) (some t)
    else if line ≠ "" then
      match current with
      | none => .error (.unboundLocalTrack line)
      | some t =>
        match _parse_track_entry line with
        | .error e => .error e
        | .ok entry =>
            parseLinesAux rest tracks
              (some { t with track_entries := t.track_entries ++ [entry] })
    else parseLinesAux rest tracks current

/-- repositories.StormTextRepository._parse_tracks: scan all lines, then
keep only the tracks whose validate_entries check passes. -/
def _parse_tracks (lines : List String) : Except ParseErr (List Track) :=
  (parseLinesAux lines [] none).map (fun ts => ts.filter Track.validate_entries)

/-- The externally supplied containment capability of services.AreaService,
reduced to its boolean test on an entry location. -/
structure Area where
  contains : LatLongPoint → Bool

/-- The combined per entry signal tested by get_landfall_dates: hurricane
status together with containment of the entry location in the area. -/
def landfallSignal (area : Area) (e : TrackEntry) : Bool :=
  e.system_status == "HU" && area.contains e.location

/-- Loop body of services.StormDataService.get_landfall_dates with the
in_area flag made explicit: a failing signal clears the flag, a holding
signal emits the entry exactly when the flag was clear. -/
def landfallLoop (area : Area) : Bool → List TrackEntry → List TrackEntry
  | _, [] => []
  | in_area, e :: rest =>
    if !landfallSignal area e then landfallLoop area false rest
    else if in_area then landfallLoop area true rest
    else e :: landfallLoop area true rest

/-- services.StormDataService.get_landfall_dates: run the loop over the
chronological entries with the flag initially clear. -/
def get_landfall_dates (track : Track) (area : Area) : List TrackEntry :=
  landfallLoop area false track.track_entries

/-- Zero padded two digit decimal rendering. -/
def pad2 (n : Nat) : String := if n < 10 then "0" ++ toString n else toString n

/-- Zero padded four digit decimal rendering. -/
def pad4 (n : Nat) : String :=
  if n < 10 then "000" ++ toString n
  else if n < 100 then "00" ++ toString n
  else if n < 1000 then "0" ++ toString n
  else toString n

/-- datetime.isoformat on a UTC timestamp of minute precision. -/
def Timestamp.isoformat (t : Timestamp) : String :=
  pad4 t.year ++ "-" ++ pad2 t.month ++ "-" ++ pad2 t.day ++ "T" ++
  pad2 t.hour ++ ":" ++ pad2 t.minute ++ ":00+00:00"

/-- One landfall dictionary of record_landfall_events. -/
structure LandfallEventRecord where
  datetime : String
  max_windspeed_kts : Int
deriving DecidableEq

/-- One storm dictionary of record_landfall_events. -/
structure StormRecord where
  name : String
  landfall_events : List LandfallEventRecord
deriving DecidableEq

/-- The landfall dictionary built from one emitted entry. -/
def entryRecord (e : TrackEntry) : LandfallEventRecord :=
  ⟨e.datetime.isoformat, e.max_windspeed⟩

/-- services.StormDataService.record_landfall_events: for each track in
order, compute its landfalls, skip the track when there are none, otherwise
append its storm dictionary. -/
def record_landfall_events (tracks : List Track) (area : Area) : List StormRecord :=
  match tracks with
  | [] => []
  | track :: rest =>
    let landfalls := get_landfall_dates track area
    if landfalls.isEmpty then record_landfall_events rest area
    else { name := track.name,
           landfall_events := landfalls.map entryRecord } :: record_landfall_events rest area

/-- data_models.TextSource._parse_data_line latitude conversion: the literal
Python expression float(field[:-1]) * (-1 ** (field[-1] == S)), in which
exponentiation binds tighter than the unary minus, so the factor is minus one
for both hemisphere letters. -/
def dm_latitude (field : String) : Option DecimalFrac :=
  match field.data.getLast? with
  | none => none
  | some c =>
      (pyFloat (String.mk field.data.dropLast)).map
        (fun q => ⟨q.num * (-((1 : Int) ^ (if c == 'S' then (1 : Nat) else 0))), q.exp⟩)

/-- data_models.TextSource._parse_data_line longitude conversion, with the
same always negative factor, conditioned on the letter W. -/
def dm_longitude (field : String) : Option DecimalFrac :=
  match field.data.getLast? with
  | none => none
  | some c =>
      (pyFloat (String.mk field.data.dropLast)).map
        (fun q => ⟨q.num * (-((1 : Int) ^ (if c == 'W' then (1 : Nat) else 0))), q.exp⟩)

/-- Leading edge selection, the formal reading of one event per maximal
contiguous run: keep exactly the elements where the signal holds while it did
not hold at the predecessor, the virtual predecessor of the first element
carrying the given initial flag. -/
def leadingEdgesFrom {α : Type*} (p : α → Bool) (prev : Bool) (l : List α) : List α :=
  ((l.zip (prev :: l.map p)).filter (fun ab => p ab.1 && !ab.2)).map Prod.fst

/-- Leading edge selection starting outside a run. -/
def leadingEdges {α : Type*} (p : α → Bool) (l : List α) : List α :=
  leadingEdgesFrom p false l

/-- Signal state carried past a list of entries: the signal of the last
entry, or the incoming state on an empty list. -/
def endState (area : Area) (b : Bool) (l : List TrackEntry) : Bool :=
  l.foldl (fun _ e => landfallSignal area e) b

instance {ε α : Type*} [DecidableEq ε] [DecidableEq α] : DecidableEq (Except ε α) :=
  fun x y =>
    match x, y with
    | .ok a, .ok b =>
      if h : a = b then isTrue (by rw [h]) else isFalse (fun hc => h (Except.ok.inj hc))
    | .ok _, .error _ => isFalse nofun
    | .error _, .ok _ => isFalse nofun
    | .error e, .error f =>
      if h : e = f then isTrue (by rw [h]) else isFalse (fun hc => h (Except.error.inj hc))

/-- Exact meaning of the greater than test on a decimal fraction. -/
theorem DecimalFrac.absGT_iff (v : DecimalFrac) (b : Nat) :
    v.absGT b = true ↔ (b : ℚ) < |v.toRat| := by
  unfold DecimalFrac.absGT DecimalFrac.toRat
  have habs : |((v.num : ℚ))| = ((v.num.natAbs : ℕ) : ℚ) := by
    rw [Int.cast_natAbs, Int.cast_abs]
  rw [abs_div, abs_pow, abs_of_nonneg (by norm_num : (0 : ℚ) ≤ 10),
    lt_div_iff₀ (by positivity), decide_eq_true_iff, habs]
  constructor
  · intro h
    exact_mod_cast h
  · intro h
    exact_mod_cast h

/-- Exact meaning of the at least test on a decimal fraction. -/
theorem DecimalFrac.absGE_iff (v : DecimalFrac) (b : Nat) :
    v.absGE b = true ↔ (b : ℚ) ≤ |v.toRat| := by
  unfold DecimalFrac.absGE DecimalFrac.toRat
  have habs : |((v.num : ℚ))| = ((v.num.natAbs : ℕ) : ℚ) := by
    rw [Int.cast_natAbs, Int.cast_abs]
  rw [abs_div, abs_pow, abs_of_nonneg (by norm_num : (0 : ℚ) ≤ 10),
    le_div_iff₀ (by positivity), decide_eq_true_iff, habs]
  constructor
  · intro h
    exact_mod_cast h
  · intro h
    exact_mod_cast h

/-- One step unfolding of the line scanning loop on a nonempty line list. -/
theorem parseLinesAux_cons (line : String) (rest : List String) (tracks : List Track)
    (current : Option Track) :
    parseLinesAux (line :: rest) tracks current =
      if _is_header line then
        match _parse_header line with
        | .error e => .error e
        | .ok t => parseLinesAux rest (closeTrack tracks current) (some t)
      else if line ≠ "" then
        match current with
        | none => .error (.unboundLocalTrack line)
        | some t =>
          match _parse_track_entry line with
          | .error e => .error e
          | .ok entry =>
              parseLinesAux rest tracks
                (some { t with track_entries := t.track_entries ++ [entry] })
      else parseLinesAux rest tracks current := by
  cases current <;> rfl

theorem leadingEdgesFrom_cons {α : Type*} (p : α → Bool) (b : Bool) (e : α) (l : List α) :
    leadingEdgesFrom p b (e :: l) =
      (if p e && !b then [e] else []) ++ leadingEdgesFrom p (p e) l := by
  simp only [leadingEdgesFrom, List.map_cons, List.zip_cons_cons, List.filter_cons]
  cases hp : p e <;> cases b <;> simp [hp]

theorem landfallLoop_eq_leadingEdgesFrom (area : Area) (b : Bool) (l : List TrackEntry) :
    landfallLoop area b l = leadingEdgesFrom (landfallSignal area) b l := by
  induction l generalizing b with
  | nil => rfl
  | cons e rest ih =>
    rw [leadingEdgesFrom_cons]
    cases hsig : landfallSignal area e <;> cases b <;>
      simp [landfallLoop, hsig, ih]

theorem landfallLoop_sublist (area : Area) (b : Bool) (l : List TrackEntry) :
    (landfallLoop area b l).Sublist l := by
  induction l generalizing b with
  | nil => simp [landfallLoop]
  | cons e rest ih =>
    cases hsig : landfallSignal area e
    · simpa [landfallLoop, hsig] using (ih false).cons e
    · cases b
      · simpa [landfallLoop, hsig] using (ih true).cons₂ e
      · simpa [landfallLoop, hsig] using (ih true).cons e

theorem landfallLoop_append (area : Area) (b : Bool) (l₁ l₂ : List TrackEntry) :
    landfallLoop area b (l₁ ++ l₂) =
      landfallLoop area b l₁ ++ landfallLoop area (endState area b l₁) l₂ := by
  induction l₁ generalizing b with
  | nil => simp [landfallLoop, endState]
  | cons e rest ih =>
    cases hsig : landfallSignal area e <;> cases b <;>
      simp [landfallLoop, hsig, ih, endState]

theorem landfallLoop_true_of_all (area : Area) (l : List TrackEntry)
    (h : ∀ e ∈ l, landfallSignal area e = true) : landfallLoop area true l = [] := by
  induction l with
  | nil => rfl
  | cons e rest ih =>
    have he := h e (by simp)
    simp only [landfallLoop, he]
    simpa using ih (fun x hx => h x (by simp [hx]))

theorem landfallLoop_false_run (area : Area) (r : TrackEntry) (rs : List TrackEntry)
    (h : ∀ e ∈ r :: rs, landfallSignal area e = true) :
    landfallLoop area false (r :: rs) = [r] := by
  have hr := h r (by simp)
  simp [landfallLoop, hr,
    landfallLoop_true_of_all area rs (fun x hx => h x (by simp [hx]))]

theorem landfallLoop_reset_of_head (area : Area) (l : List TrackEntry)
    (h : ∀ y ∈ l.head?, landfallSignal area y = false) :
    landfallLoop area true l = landfallLoop area false l := by
  cases l with
  | nil => rfl
  | cons y ys =>
    have hy := h y (by simp)
    simp [landfallLoop, hy]

theorem endState_eq_getLast (area : Area) (b : Bool) (l : List TrackEntry) :
    endState area b l =
      match l.getLast? with
      | none => b
      | some x => landfallSignal area x := by
  induction l generalizing b with
  | nil => rfl
  | cons e rest ih =>
    have h1 : endState area b (e :: rest) = endState area (landfallSignal area e) rest := by
      simp [endState]
    cases rest with
    | nil => simp [h1, endState, List.getLast?]
    | cons f fs =>
      rw [h1, ih, List.getLast?_cons_cons]
      cases hl : (f :: fs).getLast? with
      | none => simp [List.getLast?_eq_none_iff] at hl
      | some x => simp

theorem mem_landfallLoop (area : Area) (b : Bool) (l : List TrackEntry) (e : TrackEntry)
    (h : e ∈ landfallLoop area b l) : landfallSignal area e = true := by
  induction l generalizing b with
  | nil => simp [landfallLoop] at h
  | cons x rest ih =>
    cases hsig : landfallSignal area x
    · rw [show landfallLoop area b (x :: rest) = landfallLoop area false rest by
        simp [landfallLoop, hsig]] at h
      exact ih false h
    · cases b
      · rw [show landfallLoop area false (x :: rest) = x :: landfallLoop area true rest by
          simp [landfallLoop, hsig]] at h
        rcases List.mem_cons.mp h with rfl | h2
        · exact hsig
        · exact ih true h2
      · rw [show landfallLoop area true (x :: rest) = landfallLoop area true rest by
          simp [landfallLoop, hsig]] at h
        exact ih true h

/-- C1: for every track and containment predicate, the detector emits exactly
one event per maximal contiguous run of entries satisfying the combined
containment signal, namely the first entry of the run, and the result is a
subsequence of the chronological entry list: the emitted entries are exactly
the leading edges of the signal, and on a decomposition into a maximal run
bracketed by an out of area boundary on each side the output is the output on
the prefix, then the first entry of the run, then the output on the suffix. -/
theorem C1_detector_one_event_per_run (track : Track) (area : Area) :
    get_landfall_dates track area = leadingEdges (landfallSignal area) track.track_entries
    ∧ (get_landfall_dates track area).Sublist track.track_entries
    ∧ ∀ pre r rs post,
        track.track_entries = pre ++ (r :: rs) ++ post →
        (∀ e ∈ r :: rs, landfallSignal area e = true) →
        (∀ x ∈ pre.getLast?, landfallSignal area x = false) →
        (∀ y ∈ post.head?, landfallSignal area y = false) →
        get_landfall_dates track area =
          landfallLoop area false pre ++ r :: landfallLoop area false post := by
  refine ⟨landfallLoop_eq_leadingEdgesFrom area false _,
    landfallLoop_sublist area false _, ?_⟩
  intro pre r rs post hsplit hrun hpre hpost
  have hpre0 : endState area false pre = false := by
    rw [endState_eq_getLast]
    cases hl : pre.getLast? with
    | none => rfl
    | some x => exact hpre x (by simp [hl])
  have hrun1 : endState area false (r :: rs) = true := by
    rw [endState_eq_getLast]
    cases hl : (r :: rs).getLast? with
    | none => simp at hl
    | some x =>
      obtain ⟨hne, hx⟩ := List.mem_getLast?_eq_getLast (Option.mem_def.mpr hl)
      exact hrun x (hx ▸ List.getLast_mem hne)
  unfold get_landfall_dates
  rw [hsplit, List.append_assoc, landfallLoop_append, hpre0, landfallLoop_append, hrun1,
    landfallLoop_false_run area r rs hrun,
    landfallLoop_reset_of_head area post hpost]
  simp

/-- C10: every entry the detector returns has hurricane status, and an in
area entry of any other status clears the run state, so two hurricane in
area entries separated only by a non hurricane in area entry yield two
separate events. -/
theorem C10_hurricane_status_gate (track : Track) (area : Area) :
    (∀ e ∈ get_landfall_dates track area, e.system_status = "HU")
    ∧ ∀ (t : Track) (e1 e2 e3 : TrackEntry),
        t.track_entries = [e1, e2, e3] →
        e1.system_status = "HU" → area.contains e1.location = true →
        e2.system_status ≠ "HU" → area.contains e2.location = true →
        e3.system_status = "HU" → area.contains e3.location = true →
        get_landfall_dates t area = [e1, e3] := by
  constructor
  · intro e he
    have hs := mem_landfallLoop area false track.track_entries e he
    have hs' : e.system_status = "HU" ∧ area.contains e.location = true := by
      simpa [landfallSignal] using hs
    exact hs'.1
  · intro t e1 e2 e3 ht h1 hc1 h2 hc2 h3 hc3
    have hs1 : landfallSignal area e1 = true := by simp [landfallSignal, h1, hc1]
    have hs2 : landfallSignal area e2 = false := by simp [landfallSignal, hc2, h2]
    have hs3 : landfallSignal area e3 = true := by simp [landfallSignal, h3, hc3]
    simp [get_landfall_dates, ht, landfallLoop, hs1, hs2, hs3]

/-- Concrete area used by the witnesses: contains the points of latitude one. -/
def sampleArea : Area := ⟨fun p => p._latitude == some ⟨1, 0⟩⟩

/-- Concrete entry template used by the witnesses. -/
def sampleEntry (status : String) (lat : Int) : TrackEntry :=
  { location := ⟨some ⟨lat, 0⟩, some ⟨0, 0⟩⟩, datetime := ⟨2005, 1, 1, 0, 0⟩,
    record_identifier := "", system_status := status, max_windspeed := 50 }

/-- Concrete track with two maximal in area runs for the detector witnesses. -/
def sampleTrack : Track :=
  { basin := "AL", year := 2005, cyclone_no := 1, no_track_entries := 5,
    track_entries := [sampleEntry "HU" 2, sampleEntry "HU" 1, sampleEntry "HU" 1,
                      sampleEntry "HU" 2, sampleEntry "HU" 1] }

/-- Witness for C1 at a concrete two run track. -/
theorem C1_detector_one_event_per_run_witness :
    get_landfall_dates sampleTrack sampleArea =
      landfallLoop sampleArea false [sampleEntry "HU" 2] ++
        sampleEntry "HU" 1 ::
          landfallLoop sampleArea false [sampleEntry "HU" 2, sampleEntry "HU" 1] :=
  (C1_detector_one_event_per_run sampleTrack sampleArea).2.2
    [sampleEntry "HU" 2] (sampleEntry "HU" 1) [sampleEntry "HU" 1]
    [sampleEntry "HU" 2, sampleEntry "HU" 1]
    (by decide)
    (by decide)
    (by intro x hx
        have hx2 : sampleEntry "HU" 2 = x := by simpa using hx
        subst hx2; decide)
    (by intro y hy
        have hy2 : sampleEntry "HU" 2 = y := by simpa using hy
        subst hy2; decide)

/-- Concrete track whose three entries are all in area but whose middle entry
has tropical storm status. -/
def sampleTrackTS : Track :=
  { basin := "AL", year := 2005, cyclone_no := 2, no_track_entries := 3,
    track_entries := [sampleEntry "HU" 1, sampleEntry "TS" 1, sampleEntry "HU" 1] }

/-- Witness for C10 at a concrete track with a non hurricane in area entry
between two hurricane in area entries. -/
theorem C10_hurricane_status_gate_witness :
    get_landfall_dates sampleTrackTS sampleArea = [sampleEntry "HU" 1, sampleEntry "HU" 1] :=
  (C10_hurricane_status_gate sampleTrackTS sampleArea).2 sampleTrackTS
    (sampleEntry "HU" 1) (sampleEntry "TS" 1) (sampleEntry "HU" 1)
    rfl rfl (by decide) (by decide) (by decide) rfl (by decide)

/-- C2: every Track in an ok parser result satisfies the declared count
invariant; and whenever the line scan succeeds, the whole parse succeeds
with exactly the validating tracks, in scan order, so a mismatched track is
dropped by the final filter without raising while all others are kept. -/
theorem C2_declared_count_invariant (lines : List String) (tracks raw : List Track) :
    (_parse_tracks lines = .ok tracks →
      ∀ t ∈ tracks, (t.track_entries.length : Int) = t.no_track_entries)
    ∧ (parseLinesAux lines [] none = .ok raw →
      _parse_tracks lines = .ok (raw.filter Track.validate_entries)) := by
  constructor
  · intro h t ht
    cases haux : parseLinesAux lines [] none with
    | error e =>
      unfold _parse_tracks at h
      rw [haux] at h
      simp [Except.map] at h
    | ok ts =>
      unfold _parse_tracks at h
      rw [haux] at h
      simp only [Except.map] at h
      have hts := Except.ok.inj h
      rw [← hts] at ht
      have hf := List.of_mem_filter ht
      simpa [Track.validate_entries] using hf
  · intro h
    unfold _parse_tracks
    rw [h]
    rfl

/-- First entry of the concrete valid storm for the C2 witness. -/
def entryALPHA : TrackEntry :=
  { location := ⟨some ⟨100, 1⟩, some ⟨-200, 1⟩⟩, datetime := ⟨2000, 1, 1, 0, 0⟩,
    record_identifier := "", system_status := "HU", max_windspeed := 50 }

/-- Concrete valid storm for the C2 witness: one declared and one parsed
entry. -/
def trackALPHA : Track :=
  { basin := "AL", year := 2000, cyclone_no := 1, no_track_entries := 1,
    track_entries := [entryALPHA], max_windspeed := 0, name := "ALPHA" }

/-- First entry of the concrete mismatched storm for the C2 witness. -/
def entryBETA : TrackEntry :=
  { location := ⟨some ⟨110, 1⟩, some ⟨-210, 1⟩⟩, datetime := ⟨2000, 1, 1, 6, 0⟩,
    record_identifier := "", system_status := "TS", max_windspeed := 40 }

/-- Concrete mismatched storm for the C2 witness: five declared entries but
only one parsed. -/
def trackBETA : Track :=
  { basin := "AL", year := 2000, cyclone_no := 2, no_track_entries := 5,
    track_entries := [entryBETA], max_windspeed := 0, name := "BETA" }

/-- Concrete input lines for the C2 witness. -/
def linesC2 : List String :=
  ["AL012000, ALPHA, 1,", "20000101, 0000, , HU, 10.0N, 20.0W, 50",
   "AL022000, BETA, 5,", "20000101, 0600, , TS, 11.0N, 21.0W, 40"]

/-- Witness for C2: on the concrete input the scan yields both storms, the
parse keeps only the one whose count validates, and that one satisfies the
invariant. -/
theorem C2_declared_count_invariant_witness :
    _parse_tracks linesC2 = .ok ([trackALPHA, trackBETA].filter Track.validate_entries)
    ∧ ∀ t ∈ [trackALPHA], (t.track_entries.length : Int) = t.no_track_entries := by
  constructor
  · exact (C2_declared_count_invariant linesC2 [] [trackALPHA, trackBETA]).2 (by decide)
  · exact (C2_declared_count_invariant linesC2 [trackALPHA] []).1 (by decide)

/-- C8: the assembled report lists exactly the storms whose landfall list is
nonempty, in the parser track order, each carrying its landfall events in
detector order. -/
theorem C8_report_exactly_nonempty_storms (tracks : List Track) (area : Area) :
    record_landfall_events tracks area =
      (tracks.filter (fun t => !(get_landfall_dates t area).isEmpty)).map
        (fun t => { name := t.name,
                    landfall_events := (get_landfall_dates t area).map entryRecord }) := by
  induction tracks with
  | nil => rfl
  | cons t rest ih =>
    rw [record_landfall_events, List.filter_cons]
    cases h : (get_landfall_dates t area).isEmpty <;> simp [h, ih]

/-- Failure of any of the date, time, or windspeed conversions makes the data
line parse fail with a MalformedRecord error carrying the line. -/
theorem _parse_track_entry_error_of_bad (line : String)
    (hbad : fromisoformatZ (((pySplit line ',').map pyStrip)[0]?.getD "")
              (((pySplit line ',').map pyStrip)[1]?.getD "") = none
          ∨ pyInt (((pySplit line ',').map pyStrip)[6]?.getD "") = none) :
    _parse_track_entry line = .error (.malformedRecord line) := by
  simp only [_parse_track_entry]
  split
  · rename_i dateS timeS recId status latS lonS windS h0 h1 h2 h3 h4 h5 h6
    rw [h0, h1, h6] at hbad
    simp only [Option.getD_some] at hbad
    split
    · rfl
    · rename_i ts hts
      split
      · rfl
      · rename_i lat hlat
        split
        · rfl
        · rename_i lon hlon
          split
          · rfl
          · rename_i w hw
            rw [hts, hw] at hbad
            rcases hbad with h | h <;> simp at h
  · rfl

/-- A successful line scan implies that every nonempty non header line parsed
successfully as a track entry: a malformed data line is never skipped. -/
theorem parseLinesAux_data_ok :
    ∀ (lines : List String) (tracks : List Track) (current : Option Track)
      (res : List Track),
      parseLinesAux lines tracks current = .ok res →
      ∀ line ∈ lines, _is_header line = false → line ≠ "" →
        ∃ e, _parse_track_entry line = .ok e := by
  intro lines
  induction lines with
  | nil =>
    intro tracks current res h line hmem
    simp at hmem
  | cons l rest ih =>
    intro tracks current res h line hmem hnh hne
    rw [parseLinesAux_cons] at h
    by_cases hh : _is_header l
    · rw [if_pos hh] at h
      cases hph : _parse_header l with
      | error e => rw [hph] at h; simp at h
      | ok t =>
        rw [hph] at h
        rcases List.mem_cons.mp hmem with rfl | hmem2
        · rw [hh] at hnh; cases hnh
        · exact ih _ _ _ h line hmem2 hnh hne
    · rw [if_neg hh] at h
      by_cases hl : l = ""
      · subst hl
        rw [if_neg (not_not_intro rfl)] at h
        rcases List.mem_cons.mp hmem with rfl | hmem2
        · exact absurd rfl hne
        · exact ih _ _ _ h line hmem2 hnh hne
      · rw [if_pos hl] at h
        cases current with
        | none => simp at h
        | some t =>
          cases hpe : _parse_track_entry l with
          | error e => rw [hpe] at h; simp at h
          | ok entry =>
            rw [hpe] at h
            rcases List.mem_cons.mp hmem with rfl | hmem2
            · exact ⟨entry, hpe⟩
            · exact ih _ _ _ h line hmem2 hnh hne

/-- C5: a data line whose date, time, or windspeed field is not numerically
parseable makes the entry parse fail with a MalformedRecord error naming the
offending line, and the presence of such a line among the input lines makes
the whole parse fail: the line is not silently skipped. -/
theorem C5_malformed_numeric_field (line : String) (lines : List String) (tracks : List Track)
    (hmem : line ∈ lines) (hnothdr : _is_header line = false) (hne : line ≠ "")
    (hbad : fromisoformatZ (((pySplit line ',').map pyStrip)[0]?.getD "")
              (((pySplit line ',').map pyStrip)[1]?.getD "") = none
          ∨ pyInt (((pySplit line ',').map pyStrip)[6]?.getD "") = none) :
    _parse_track_entry line = .error (.malformedRecord line)
    ∧ _parse_tracks lines ≠ .ok tracks := by
  have herr := _parse_track_entry_error_of_bad line hbad
  refine ⟨herr, ?_⟩
  intro hok
  obtain ⟨raw, hraw⟩ : ∃ raw, parseLinesAux lines [] none = .ok raw := by
    unfold _parse_tracks at hok
    cases haux : parseLinesAux lines [] none with
    | error e => rw [haux] at hok; simp [Except.map] at hok
    | ok ts => exact ⟨ts, rfl⟩
  obtain ⟨e, he⟩ := parseLinesAux_data_ok lines [] none raw hraw line hmem hnothdr hne
  rw [herr] at he
  simp at he

/-- Concrete input lines for the C5 witness: the windspeed field of the data
line is not numeric. -/
def linesC5 : List String :=
  ["AL012000, ALPHA, 1,", "20000101, 0000, , HU, 10.0N, 20.0W, 5X"]

/-- Witness for C5 at a concrete line with a malformed windspeed. -/
theorem C5_malformed_numeric_field_witness :
    _parse_track_entry "20000101, 0000, , HU, 10.0N, 20.0W, 5X" =
      .error (.malformedRecord "20000101, 0000, , HU, 10.0N, 20.0W, 5X")
    ∧ _parse_tracks linesC5 ≠ .ok [] :=
  C5_malformed_numeric_field "20000101, 0000, , HU, 10.0N, 20.0W, 5X" linesC5 []
    (by decide) (by decide) (by decide) (Or.inr (by decide))

/-- C3: the four hemisphere conversions of the active parser in
repositories.py produce the specified signed values, while the older
data_models.py conversion negates for both hemisphere letters because the
exponentiation in its sign factor binds tighter than the unary minus. -/
theorem C3_hemisphere_sign_conversion :
    (parseLatitudeField "28.0N").map DecimalFrac.toRat = some 28
    ∧ (parseLatitudeField "28.0S").map DecimalFrac.toRat = some (-28)
    ∧ (parseLongitudeField "94.8W").map DecimalFrac.toRat = some (-(948 / 10))
    ∧ (parseLongitudeField "94.8E").map DecimalFrac.toRat = some (948 / 10)
    ∧ (dm_latitude "28.0N").map DecimalFrac.toRat = some (-28)
    ∧ (dm_longitude "94.8E").map DecimalFrac.toRat = some (-(948 / 10)) := by
  have h1 : parseLatitudeField "28.0N" = some ⟨280, 1⟩ := by decide
  have h2 : parseLatitudeField "28.0S" = some ⟨-280, 1⟩ := by decide
  have h3 : parseLongitudeField "94.8W" = some ⟨-948, 1⟩ := by decide
  have h4 : parseLongitudeField "94.8E" = some ⟨948, 1⟩ := by decide
  have h5 : dm_latitude "28.0N" = some ⟨-280, 1⟩ := by decide
  have h6 : dm_longitude "94.8E" = some ⟨-948, 1⟩ := by decide
  refine ⟨?_, ?_, ?_, ?_, ?_, ?_⟩
  · rw [h1]; norm_num [DecimalFrac.toRat]
  · rw [h2]; norm_num [DecimalFrac.toRat]
  · rw [h3]; norm_num [DecimalFrac.toRat]
  · rw [h4]; norm_num [DecimalFrac.toRat]
  · rw [h5]; norm_num [DecimalFrac.toRat]
  · rw [h6]; norm_num [DecimalFrac.toRat]

/-- C4: a data line arriving before any header makes the parser fail (the
Python code raises UnboundLocalError on the unbound track variable) instead
of skipping the line and continuing. -/
theorem C4_orphan_data_line_crashes :
    _parse_tracks ["20051024, 1030, L, HU, 25.3N, 80.7W, 105"] =
      .error (.unboundLocalTrack "20051024, 1030, L, HU, 25.3N, 80.7W, 105") := by
  decide

/-- C6 counterexample: constructing a point with latitude 91, or longitude
180, does not fail with any exception; the offending attribute is silently
left unset while the other coordinate is stored. -/
theorem C6_out_of_range_construction_not_fatal :
    LatLongPoint.init ⟨91, 0⟩ ⟨0, 0⟩ = { _latitude := none, _longitude := some ⟨0, 0⟩ }
    ∧ LatLongPoint.init ⟨0, 0⟩ ⟨180, 0⟩ = { _latitude := some ⟨0, 0⟩, _longitude := none } := by
  decide

/-- The latitude setter stores exactly the in range values and leaves the
attribute untouched otherwise. -/
theorem set_latitude_eq (p : LatLongPoint) (lat : DecimalFrac) :
    (p.set_latitude lat).1 =
      { p with _latitude := if |lat.toRat| ≤ 90 then some lat else p._latitude } := by
  unfold LatLongPoint.set_latitude
  cases hGT : lat.absGT 90
  · have hle : |lat.toRat| ≤ 90 := by
      by_contra hc
      have h90 : lat.absGT 90 = true := by
        rw [DecimalFrac.absGT_iff]
        push_cast
        exact not_le.mp hc
      rw [hGT] at h90
      cases h90
    simp [hGT, hle]
  · have hnle : ¬(|lat.toRat| ≤ 90) := by
      have h90 := (DecimalFrac.absGT_iff lat 90).mp hGT
      push_cast at h90
      exact not_le.mpr h90
    simp [hGT, hnle]

/-- The longitude setter stores exactly the in range values and leaves the
attribute untouched otherwise. -/
theorem set_longitude_eq (p : LatLongPoint) (lon : DecimalFrac) :
    (p.set_longitude lon).1 =
      { p with _longitude := if |lon.toRat| < 180 then some lon else p._longitude } := by
  unfold LatLongPoint.set_longitude
  cases hGE : lon.absGE 180
  · have hlt : |lon.toRat| < 180 := by
      by_contra hc
      have h180 : lon.absGE 180 = true := by
        rw [DecimalFrac.absGE_iff]
        push_cast
        exact not_lt.mp hc
      rw [hGE] at h180
      cases h180
    simp [hGE, hlt]
  · have hnlt : ¬(|lon.toRat| < 180) := by
      have h180 := (DecimalFrac.absGE_iff lon 180).mp hGE
      push_cast at h180
      exact not_lt.mpr h180
    simp [hGE, hnlt]

/-- C6 amended: construction never fails; each coordinate is stored exactly
when it is in range (latitude magnitude at most 90, longitude magnitude
strictly below 180) and is silently left unset otherwise, and the object
remains mutable afterwards: a setter call on an existing point overwrites
the in range coordinate. -/
theorem C6_construction_stores_in_range (lat lon : DecimalFrac) (p : LatLongPoint) :
    LatLongPoint.init lat lon =
      { _latitude := if |lat.toRat| ≤ 90 then some lat else none,
        _longitude := if |lon.toRat| < 180 then some lon else none }
    ∧ (p.set_latitude lat).1 =
      { p with _latitude := if |lat.toRat| ≤ 90 then some lat else p._latitude }
    ∧ (p.set_longitude lon).1 =
      { p with _longitude := if |lon.toRat| < 180 then some lon else p._longitude } := by
  refine ⟨?_, set_latitude_eq p lat, set_longitude_eq p lon⟩
  unfold LatLongPoint.init
  rw [set_latitude_eq, set_longitude_eq]

/-- C7 counterexample: with the header declaring one hundred entries and a
single data line following it, the count validation drops the WILMA track
and parsing yields no tracks at all. -/
theorem C7_scenario_yields_no_track :
    _parse_tracks ["AL252005, WILMA, 100,", "20051024, 1030, L, HU, 25.3N, 80.7W, 105"] =
      .ok [] := by
  decide

/-- The single entry of the corrected WILMA scenario. -/
def wilmaEntry : TrackEntry :=
  { location := ⟨some ⟨253, 1⟩, some ⟨-807, 1⟩⟩, datetime := ⟨2005, 10, 24, 10, 30⟩,
    record_identifier := "L", system_status := "HU", max_windspeed := 105 }

/-- The track of the corrected WILMA scenario. -/
def wilmaTrack : Track :=
  { basin := "AL", year := 2005, cyclone_no := 25, no_track_entries := 1,
    track_entries := [wilmaEntry], max_windspeed := 0, name := "WILMA" }

/-- C7 amended: with the declared count corrected to one, parsing yields the
track named WILMA, and the detector, under any area containing the single
point and with the hurricane status predicate of the code, yields exactly
one event with windspeed 105 at 2005-10-24T10:30 UTC. -/
theorem C7_wilma_scenario (area : Area)
    (hc : area.contains wilmaEntry.location = true) :
    _parse_tracks ["AL252005, WILMA, 1,", "20051024, 1030, L, HU, 25.3N, 80.7W, 105"] =
      .ok [wilmaTrack]
    ∧ wilmaTrack.name = "WILMA"
    ∧ get_landfall_dates wilmaTrack area = [wilmaEntry]
    ∧ wilmaEntry.max_windspeed = 105
    ∧ wilmaEntry.datetime = ⟨2005, 10, 24, 10, 30⟩ := by
  refine ⟨by decide, rfl, ?_, rfl, rfl⟩
  have hs : landfallSignal area wilmaEntry = true := by
    unfold landfallSignal
    rw [hc, show wilmaEntry.system_status = "HU" from rfl]
    simp
  simp [get_landfall_dates, wilmaTrack, landfallLoop, hs]

/-- Witness for the amended C7 at the area containing every point. -/
theorem C7_wilma_scenario_witness :
    _parse_tracks ["AL252005, WILMA, 1,", "20051024, 1030, L, HU, 25.3N, 80.7W, 105"] =
      .ok [wilmaTrack]
    ∧ wilmaTrack.name = "WILMA"
    ∧ get_landfall_dates wilmaTrack ⟨fun _ => true⟩ = [wilmaEntry]
    ∧ wilmaEntry.max_windspeed = 105
    ∧ wilmaEntry.datetime = ⟨2005, 10, 24, 10, 30⟩ :=
  C7_wilma_scenario ⟨fun _ => true⟩ rfl

/-- C9 counterexample: a header line whose second comma field is empty after
trimming produces a track whose name is the empty string, not UNNAMED. -/
theorem C9_empty_name_stays_empty :
    Except.map Track.name (_parse_header "AL011851, , 0,") = .ok ""
    ∧ ("" : String) ≠ "UNNAMED" := by
  decide

/-- C9 amended: a successful header parse stores the trimmed second field
verbatim as the track name, so an empty field yields the empty string; the
UNNAMED default of the Track class is never exercised by the parser. -/
theorem C9_name_is_verbatim_field (line : String) (t : Track)
    (h : _parse_header line = .ok t) :
    t.name = ((pySplit line ',').map pyStrip)[1]?.getD "" := by
  simp only [_parse_header] at h
  split at h
  · rename_i field0 name countStr h0 h1 h2
    split at h
    · split at h
      · split at h
        · rename_i n hn
          have ht := Except.ok.inj h
          rw [← ht, h1]
          rfl
        · simp at h
      · simp at h
    · simp at h
  · simp at h

/-- The track parsed from the empty name header of the C9 witness. -/
def emptyNameTrack : Track :=
  { basin := "AL", year := 1851, cyclone_no := 1, no_track_entries := 0,
    track_entries := [], max_windspeed := 0, name := "" }

/-- Witness for the amended C9 at a concrete empty name header. -/
theorem C9_name_is_verbatim_field_witness :
    emptyNameTrack.name =
      ((pySplit "AL011851, , 0," ',').map pyStrip)[1]?.getD "" :=
  C9_name_is_verbatim_field "AL011851, , 0," emptyNameTrack (by decide)

end Hurdat2
